import Mathlib

/-!
Shallow embedding of the Dead-by-Daylight match-log GUI sources
(src/util.py, src/guicontrols.py, src/StatisticsWindow.py), together with
theorems about the embedded operations.

Python integers are embedded as `Int`/`Nat`, Python dicts as association
lists in insertion order (`List (κ × α)`), Python floats as `Rat`
(no claim depends on rounding), and fallible code (ValueError, KeyError,
IndexError) as `Option`/`Except`.  Qt widget construction is embedded only
to the extent the data flow is observable: charts keep their category axis,
value axis and bar sets; presentation-only attributes (style sheets, sizes,
titles, animation, legend flags) are dropped.
-/

namespace DbdLog

/-! ### util.py -/

/-- Embedding of `util.clamp` (util.py lines 14-15):
`minValue if value < minValue else maxValue if value > maxValue else value`. -/
def clamp (value minValue maxValue : Int) : Int :=
  if value < minValue then minValue
  else if value > maxValue then maxValue
  else value

/-- Embedding of `util.clamp_reverse` (util.py lines 17-18), imported by
guicontrols.py under the name `clampReverse`:
`minValue if value > maxValue else maxValue if value < minValue else value`. -/
def clampReverse (value minValue maxValue : Int) : Int :=
  if value > maxValue then minValue
  else if value < minValue then maxValue
  else value

/-! ### Python primitives used by the embedding -/

/-- Python dict lookup `d[k]` on a dict embedded as an association list in
insertion order; `none` embeds a `KeyError`.  Python dict keys are unique,
so `find?` returns the unique binding. -/
def dictGet {κ α : Type} [DecidableEq κ] (d : List (κ × α)) (k : κ) : Option α :=
  (d.find? (fun p => decide (p.1 = k))).map (·.2)

/-- Python builtin `max` over an iterable: raises `ValueError` (embedded as
`none`) on an empty iterable, otherwise folds binary `max` over the rest. -/
def pyMax {α : Type} [Max α] : List α → Option α
  | [] => none
  | x :: xs => some (xs.foldl max x)

/-- Sequencing of fallible lookups over a list: the first embedded Python
exception (`none`) propagates, as an uncaught exception would. -/
def mapOption {α β : Type} (f : α → Option β) : List α → Option (List β)
  | [] => some []
  | a :: l =>
    match f a, mapOption f l with
    | some b, some bs => some (b :: bs)
    | _, _ => none

/-- Python `str.lower()` restricted to the code points `str.lower` and
`Char.toLower` agree on (the ASCII letters used by character names). -/
def pyLower (l : List Char) : List Char :=
  l.map Char.toLower

/-- Python single-character `str.replace(src, dst)`. -/
def pyReplaceChar (src dst : Char) (l : List Char) : List Char :=
  l.map (fun c => if c = src then dst else c)

/-- Python `str.replace(x, )` with the empty string as second argument:
removes every occurrence of the character `x`. -/
def pyStripChar (x : Char) (l : List Char) : List Char :=
  l.filter (fun c => decide (c ≠ x))

/-- The apostrophe character (code point 39), written via `Char.ofNat`. -/
def apostropheChar : Char := Char.ofNat 39

/-! ### Character-name canonicalization call sites (guicontrols.py)

Each icon lookup canonicalizes a display name inline; the pipelines differ
between call sites. -/

/-- Canonicalization at `KillerSelect.__init__` (guicontrols.py line 88) and
`KillerSelect.updateSelected` (line 122): `.lower().replace(' ', '-')`. -/
def canonKillerSelect (s : String) : String :=
  (pyReplaceChar ' ' '-' (pyLower s.toList)).asString

/-- Canonicalization at `AddonSelectPopup.initPopupGrid` (guicontrols.py
line 195): lowercase, spaces to hyphens, then strip double quotes, colons
and apostrophes. -/
def canonAddonGrid (s : String) : String :=
  (pyStripChar apostropheChar
    (pyStripChar ':'
      (pyStripChar '"'
        (pyReplaceChar ' ' '-' (pyLower s.toList))))).asString

/-- Canonicalization at `AddonSelection.__showAddonPopup` (guicontrols.py
line 279): lowercase, strip double quotes, then spaces to hyphens. -/
def canonAddonButton (s : String) : String :=
  (pyReplaceChar ' ' '-' (pyStripChar '"' (pyLower s.toList))).asString

/-! ### models.py stand-ins

models.py is not under src/; only the shape consumed by the shown code is
modeled.  The enums `FacedSurvivorState` and `SurvivorMatchResult` are kept
abstract: chart builders take the declared variant list (Python iterates an
Enum class in declaration order) and a label function (`splitUpper` lives in
the missing part of util.py) as parameters. -/

/-- Modelled from the spec: a survivor character; the shown code reads only
the display name `survivorName`. -/
structure Survivor where
  survivorName : String
deriving DecidableEq

/-- Modelled from the spec: a killer character; the shown code reads only
the display name `killerAlias`. -/
structure Killer where
  killerAlias : String
deriving DecidableEq

/-! ### statistics.py result objects

statistics.py is not under src/; the result records are modeled from the
spec (section 3) with exactly the fields StatisticsWindow.py consumes. -/

/-- Modelled from the spec: `EliminationInfo`, a fixed-shape record of three
non-negative integers (kills, sacrifices, disconnects), in that declared
field order. -/
structure EliminationInfo where
  kills : Nat
  sacrifices : Nat
  disconnects : Nat
deriving DecidableEq

/-- `dataclasses.astuple` on `EliminationInfo`: the fields in declared
order (StatisticsWindow.py line 365). -/
def astupleElim (e : EliminationInfo) : List Nat :=
  [e.kills, e.sacrifices, e.disconnects]

/-- Modelled from the spec: the favourite-killer record of
`KillerMatchStatistics` (a character paired with game counts). -/
structure FavouriteKillerInfo where
  killer : Killer
  gamesWithKiller : Nat
  totalGames : Nat
deriving DecidableEq

/-- Modelled from the spec: a most/least-common record pairing a survivor
with an encounter count and a total-game count. -/
structure SurvivorEncounterData where
  survivor : Survivor
  encounters : Nat
  totalGames : Nat
deriving DecidableEq

/-- Modelled from the spec: a most/least-common record pairing a killer
with an encounter count and a total-game count. -/
structure KillerEncounterData where
  killer : Killer
  encounters : Nat
  totalGames : Nat
deriving DecidableEq

/-- Modelled from the spec: a most/least-lethal record pairing a killer
with a death count, a total-game count and a kill ratio. -/
structure KillerLethalityData where
  killer : Killer
  deathsCount : Nat
  totalGames : Nat
  killRatio : Rat
deriving DecidableEq

/-- Modelled from the spec: the most-common-item-type record; the shown
code renders it as text and matches on `itemType`. -/
structure ItemTypeData where
  itemType : String
deriving DecidableEq

/-- Modelled from the spec: `KillerMatchStatistics`, the immutable
killer-role result snapshot, with the fields StatisticsWindow.py consumes.
`ε` stands for the enum `FacedSurvivorState` (models.py is not under src/).
Histograms are dicts in insertion order. -/
structure KillerMatchStatistics (ε : Type) where
  favouriteKillerInfo : FavouriteKillerInfo
  mostCommonSurvivorData : SurvivorEncounterData
  leastCommonSurvivorData : SurvivorEncounterData
  totalEliminationsInfo : EliminationInfo
  facedSurvivorStatesHistogram : List (Survivor × List (ε × Nat))
  totalSurvivorStatesHistogram : List (ε × Nat)
  gamesPlayedWithKiller : List (Killer × Nat)
  averageKillerKillsPerMatch : List (Killer × Rat)
  totalKillerEliminations : List (Killer × EliminationInfo)
deriving DecidableEq

/-- Modelled from the spec: `SurvivorMatchStatistics`, the immutable
survivor-role result snapshot, with the fields StatisticsWindow.py consumes.
`ρ` stands for the enum `SurvivorMatchResult` (models.py is not under
src/). -/
structure SurvivorMatchStatistics (ρ : Type) where
  mostCommonKillerData : KillerEncounterData
  leastCommonKillerData : KillerEncounterData
  mostLethalKillerData : KillerLethalityData
  leastLethalKillerData : KillerLethalityData
  mostCommonItemTypeData : ItemTypeData
  gamesPlayedWithSurvivor : List (Survivor × Nat)
  facedKillerHistogram : List (Killer × Nat)
  matchResultsHistogram : List (ρ × Nat)
  survivorsMatchResultsHistogram : List (Survivor × List (ρ × Nat))
deriving DecidableEq

/-! ### StatisticsWorker (StatisticsWindow.py lines 22-34) -/

/-- The calculator collaborator: three zero-argument computation entry
points.  `γ` stands for `GeneralMatchStatistics`; the killer and survivor
results may be the absent value `None` (the signal slot checks both against
`None`). -/
structure StatisticsCalculator (γ κ σ : Type) where
  calculateGeneral : γ
  calculateKillerGeneral : Option κ
  calculateSurvivorGeneral : Option σ

/-- Observable events of `StatisticsWorker.run`: one event per calculator
entry-point invocation, plus the `calculationFinished.emit` call carrying
the bundled triple. -/
inductive WorkerEvent (γ κ σ : Type)
  | callGeneral
  | callKillerGeneral
  | callSurvivorGeneral
  | emitCalculationFinished (general : γ) (killer : Option κ) (survivor : Option σ)
deriving DecidableEq

/-- Whether a worker event is a `calculationFinished` emission. -/
def WorkerEvent.isEmission {γ κ σ : Type} : WorkerEvent γ κ σ → Bool
  | .emitCalculationFinished _ _ _ => true
  | _ => false

/-- Embedding of `StatisticsWorker.run` (StatisticsWindow.py lines 30-34) as
its event trace: the three entry points are invoked sequentially in the
order general, killer, survivor, then the bundled triple is emitted once. -/
def statisticsWorkerRun {γ κ σ : Type} (calculator : StatisticsCalculator γ κ σ) :
    List (WorkerEvent γ κ σ) :=
  let general := calculator.calculateGeneral
  let killer := calculator.calculateKillerGeneral
  let survivor := calculator.calculateSurvivorGeneral
  [WorkerEvent.callGeneral, WorkerEvent.callKillerGeneral,
   WorkerEvent.callSurvivorGeneral,
   WorkerEvent.emitCalculationFinished general killer survivor]

/-! ### Chart primitives (StatisticsWindow.py lines 502-532) -/

/-- A `QBarCategoryAxis` after `setLabelsAngle` and `append(categories)`. -/
structure CategoryAxis where
  labelsAngle : Int
  categories : List String
deriving DecidableEq

/-- A `QValueAxis` after `setRange(minVal, maxVal)`; `α` is `Nat` for count
charts and `Rat` for the average-kills chart. -/
structure ValueAxis (α : Type) where
  minVal : α
  maxVal : α
deriving DecidableEq

/-- Embedding of `StatisticsWindow.__barSeriesAxes` (lines 502-507): builds
the category axis (with label angle, -90 at every call site) and the value
axis with range `[minVal, maxVal]`. -/
def barSeriesAxes {α : Type} (minVal maxVal : α) (categories : List String)
    (labelAngle : Int) : CategoryAxis × ValueAxis α :=
  ({ labelsAngle := labelAngle, categories := categories },
   { minVal := minVal, maxVal := maxVal })

/-- A bar chart as assembled by `__barSeries`/`__barChart`/`__barChartView`:
the two axes plus the named bar sets in append order, each bar set holding
its appended values in order. -/
structure BarChart (α : Type) where
  categoryAxis : CategoryAxis
  valueAxis : ValueAxis α
  barsets : List (String × List α)
deriving DecidableEq

/-! ### Chart builders (StatisticsWindow.py)

Builders that index a dict (`KeyError`) or call `max` on possibly-empty
values (`ValueError`) return `Option`; a `none` embeds the unhandled Python
exception. -/

/-- Embedding of `__setupFacedSurvivorStatesChart` (lines 335-348).
`decl` is the declared variant list of `FacedSurvivorState` and
`stateLabel` the label rendering of a variant.  One bar set per state, in
declared order; per state the counts are appended per survivor in histogram
insertion order; the running `maxVal` starts at 0. -/
def setupFacedSurvivorStatesChart {ε : Type} [DecidableEq ε] (decl : List ε)
    (stateLabel : ε → String) (killerStats : KillerMatchStatistics ε) :
    Option (BarChart Nat) :=
  match mapOption (fun state =>
      mapOption (fun p => dictGet p.2 state)
        killerStats.facedSurvivorStatesHistogram) decl with
  | none => none
  | some rows =>
    let maxVal := rows.flatten.foldl max 0
    let axes := barSeriesAxes 0 maxVal
      (killerStats.facedSurvivorStatesHistogram.map (fun p => p.1.survivorName)) (-90)
    some { categoryAxis := axes.1, valueAxis := axes.2,
           barsets := (decl.map stateLabel).zip rows }

/-- Embedding of `__setupTotalStatesChart` (lines 350-358): value axis from
`max(hist.values())` (ValueError on an empty histogram), one category per
declared `FacedSurvivorState` variant, and one bar set whose values are
`hist[k]` for `k` over the declared variants (KeyError on a missing one). -/
def setupTotalStatesChart {ε : Type} [DecidableEq ε] (decl : List ε)
    (stateLabel : ε → String) (killerStats : KillerMatchStatistics ε) :
    Option (BarChart Nat) :=
  match pyMax (killerStats.totalSurvivorStatesHistogram.map (·.2)) with
  | none => none
  | some maxVal =>
    let axes := barSeriesAxes 0 maxVal (decl.map stateLabel) (-90)
    match mapOption (fun k => dictGet killerStats.totalSurvivorStatesHistogram k) decl with
    | none => none
    | some vals =>
      some { categoryAxis := axes.1, valueAxis := axes.2,
             barsets := [("Survivor state", vals)] }

/-- Embedding of `__setupKillerGamesChart` (lines 420-428): value axis from
`max(gamesHistogram.values())` (ValueError on an empty histogram); the bar
set appends `gamesHistogram[k]` for `k` over the dict keys, which on a dict
is exactly the values in insertion order. -/
def setupKillerGamesChart {ε : Type} (killerStats : KillerMatchStatistics ε) :
    Option (BarChart Nat) :=
  match pyMax (killerStats.gamesPlayedWithKiller.map (·.2)) with
  | none => none
  | some maxVal =>
    let axes := barSeriesAxes 0 maxVal
      (killerStats.gamesPlayedWithKiller.map (fun p => p.1.killerAlias)) (-90)
    some { categoryAxis := axes.1, valueAxis := axes.2,
           barsets := [("Games with certain killer",
             killerStats.gamesPlayedWithKiller.map (·.2))] }

/-- Embedding of `__setupEliminationsChart` (lines 360-372): three bar sets
paired against `dataclasses.astuple` of each `EliminationInfo` in dict key
order; the running `maxVal` starts at 0.  Total: no dict lookup can miss and
no `max` call occurs. -/
def setupEliminationsChart {ε : Type} (killerStats : KillerMatchStatistics ε) :
    BarChart Nat :=
  let elims := killerStats.totalKillerEliminations
  let tuples := elims.map (fun p => astupleElim p.2)
  let maxVal := tuples.flatten.foldl max 0
  let row (i : Nat) : List Nat := tuples.map (fun t => t.getD i 0)
  let axes := barSeriesAxes 0 maxVal (elims.map (fun p => p.1.killerAlias)) (-90)
  { categoryAxis := axes.1, valueAxis := axes.2,
    barsets := [("Sacrifices", row 0), ("Kills", row 1), ("Disconnects", row 2)] }

/-- Embedding of `__setupAverageKillsChart` (lines 446-454): like the games
chart but over the float-valued (embedded as `Rat`) per-killer averages. -/
def setupAverageKillsChart {ε : Type} (killerStats : KillerMatchStatistics ε) :
    Option (BarChart Rat) :=
  match pyMax (killerStats.averageKillerKillsPerMatch.map (·.2)) with
  | none => none
  | some maxVal =>
    let axes := barSeriesAxes 0 maxVal
      (killerStats.averageKillerKillsPerMatch.map (fun p => p.1.killerAlias)) (-90)
    some { categoryAxis := axes.1, valueAxis := axes.2,
           barsets := [("Average kills per match",
             killerStats.averageKillerKillsPerMatch.map (·.2))] }

/-- Embedding of `__setupFacedKillerHistogramChart` (lines 456-464): value
axis from `max(facedKillerHist.values())`; categories and values follow the
histogram dict in insertion order. -/
def setupFacedKillerHistogramChart {ρ : Type}
    (survivorStats : SurvivorMatchStatistics ρ) : Option (BarChart Nat) :=
  match pyMax (survivorStats.facedKillerHistogram.map (·.2)) with
  | none => none
  | some maxVal =>
    let axes := barSeriesAxes 0 maxVal
      (survivorStats.facedKillerHistogram.map (fun p => p.1.killerAlias)) (-90)
    some { categoryAxis := axes.1, valueAxis := axes.2,
           barsets := [("Faced killers", survivorStats.facedKillerHistogram.map (·.2))] }

/-- Embedding of `__setupSurvivorGamesChart` (lines 466-474). -/
def setupSurvivorGamesChart {ρ : Type}
    (survivorStats : SurvivorMatchStatistics ρ) : Option (BarChart Nat) :=
  match pyMax (survivorStats.gamesPlayedWithSurvivor.map (·.2)) with
  | none => none
  | some maxVal =>
    let axes := barSeriesAxes 0 maxVal
      (survivorStats.gamesPlayedWithSurvivor.map (fun p => p.1.survivorName)) (-90)
    some { categoryAxis := axes.1, valueAxis := axes.2,
           barsets := [("Games with survivor",
             survivorStats.gamesPlayedWithSurvivor.map (·.2))] }

/-- Embedding of `__setupMatchResultsHistogramChart` (lines 476-484): the
categories iterate the declared `SurvivorMatchResult` variants, but the bar
set values iterate the histogram dict keys in insertion order. -/
def setupMatchResultsHistogramChart {ρ : Type} (declResults : List ρ)
    (resultLabel : ρ → String) (survivorStats : SurvivorMatchStatistics ρ) :
    Option (BarChart Nat) :=
  match pyMax (survivorStats.matchResultsHistogram.map (·.2)) with
  | none => none
  | some maxVal =>
    let axes := barSeriesAxes 0 maxVal (declResults.map resultLabel) (-90)
    some { categoryAxis := axes.1, valueAxis := axes.2,
           barsets := [("Match results", survivorStats.matchResultsHistogram.map (·.2))] }

/-- Embedding of `__setupSurvivorMatchResultsHistogramChart` (lines
486-500): one bar set per declared `SurvivorMatchResult` variant, counts
appended per survivor in histogram insertion order, running `maxVal` from
0. -/
def setupSurvivorMatchResultsHistogramChart {ρ : Type} [DecidableEq ρ]
    (declResults : List ρ) (resultLabel : ρ → String)
    (survivorStats : SurvivorMatchStatistics ρ) : Option (BarChart Nat) :=
  match mapOption (fun r =>
      mapOption (fun p => dictGet p.2 r)
        survivorStats.survivorsMatchResultsHistogram) declResults with
  | none => none
  | some rows =>
    let maxVal := rows.flatten.foldl max 0
    let axes := barSeriesAxes 0 maxVal
      (survivorStats.survivorsMatchResultsHistogram.map (fun p => p.1.survivorName)) (-90)
    some { categoryAxis := axes.1, valueAxis := axes.2,
           barsets := (declResults.map resultLabel).zip rows }

/-! ### The statistics tabs (`__setupUIForStatistics`, lines 79-326) -/

/-- A chart view added to a tab; the average-kills chart carries `Rat`
values, all others `Nat`. -/
inductive RenderedChart
  | natChart (c : BarChart Nat)
  | ratChart (c : BarChart Rat)
deriving DecidableEq

/-- The content built for one role tab: either the fixed empty-state label,
or the aggregate widget group (kept as its header labels) followed by the
chart views in creation order. -/
inductive TabContent
  | emptyMessage (text : String)
  | stats (aggregateLabels : List String) (charts : List RenderedChart)
deriving DecidableEq

/-- The aggregate header labels of the killer tab (lines 168-173). -/
def killerAggregateLabels : List String :=
  ["Favourite killer", "Most common survivor", "Least common survivor",
   "Total eliminations"]

/-- The aggregate header labels of the survivor tab (lines 258-264). -/
def survivorAggregateLabels : List String :=
  ["Most common killer", "Least common killer", "Most lethal killer",
   "Least lethal killer", "Most common item type"]

/-- Embedding of the killer-tab branch of `__setupUIForStatistics` (lines
139-222): `None` yields only the fixed empty-state label; otherwise the
aggregate widgets and the five killer charts are built in order.  A chart
builder fault aborts UI construction (`none`). -/
def killerTabContent {ε : Type} [DecidableEq ε] (decl : List ε)
    (stateLabel : ε → String) (killerStats : Option (KillerMatchStatistics ε)) :
    Option TabContent :=
  match killerStats with
  | none => some (TabContent.emptyMessage
      "Nothing to see here. No killer matches present.")
  | some ks => do
    let c1 ← setupFacedSurvivorStatesChart decl stateLabel ks
    let c2 ← setupKillerGamesChart ks
    let c3 ← setupTotalStatesChart decl stateLabel ks
    let c4 := setupEliminationsChart ks
    let c5 ← setupAverageKillsChart ks
    pure (TabContent.stats killerAggregateLabels
      [RenderedChart.natChart c1, RenderedChart.natChart c2,
       RenderedChart.natChart c3, RenderedChart.natChart c4,
       RenderedChart.ratChart c5])

/-- Embedding of the survivor-tab branch of `__setupUIForStatistics` (lines
225-326): `None` yields only the fixed empty-state label; otherwise the
aggregate widgets and the four survivor charts are built in order. -/
def survivorTabContent {ρ : Type} [DecidableEq ρ] (declResults : List ρ)
    (resultLabel : ρ → String)
    (survivorStats : Option (SurvivorMatchStatistics ρ)) : Option TabContent :=
  match survivorStats with
  | none => some (TabContent.emptyMessage
      "Nothing to see here. No survivor matches present.")
  | some ss => do
    let c1 ← setupSurvivorGamesChart ss
    let c2 ← setupFacedKillerHistogramChart ss
    let c3 ← setupSurvivorMatchResultsHistogramChart declResults resultLabel ss
    let c4 ← setupMatchResultsHistogramChart declResults resultLabel ss
    pure (TabContent.stats survivorAggregateLabels
      [RenderedChart.natChart c1, RenderedChart.natChart c2,
       RenderedChart.natChart c3, RenderedChart.natChart c4])

/-- Embedding of `__setupUIForStatistics` restricted to its observable tab
content: the killer tab is built first, then the survivor tab (the general
stats box reads only `generalStats` fields and builds no charts; it is
dropped as presentation-only). -/
def setupUIForStatistics {ε ρ : Type} [DecidableEq ε] [DecidableEq ρ]
    (decl : List ε) (stateLabel : ε → String) (declResults : List ρ)
    (resultLabel : ρ → String) (killerStats : Option (KillerMatchStatistics ε))
    (survivorStats : Option (SurvivorMatchStatistics ρ)) :
    Option (TabContent × TabContent) := do
  let killerTab ← killerTabContent decl stateLabel killerStats
  let survivorTab ← survivorTabContent declResults resultLabel survivorStats
  pure (killerTab, survivorTab)

/-! ### Carousel selectors (guicontrols.py) -/

/-- The state of a `KillerSelect` relevant to index updates: the item list,
the current index and the selected item (`None` until a selection is
made). -/
structure KillerSelectState where
  killers : List Killer
  currentIndex : Int
  selectedItem : Option Killer
deriving DecidableEq

/-- Embedding of `KillerSelect.__updateIndex` (guicontrols.py lines
111-116): on an empty item list it returns without touching the state;
otherwise it clamps the requested value with `clampReverse(value, 0, N-1)`
and `selectFromIndex` stores the indexed killer (the clamped index is
nonnegative, so `toNat` agrees with Python indexing; an out-of-range index
would be an `IndexError`, embedded as `none`). -/
def killerSelectUpdateIndex (s : KillerSelectState) (value : Int) :
    Option KillerSelectState :=
  if s.killers.length = 0 then some s
  else
    let i := clampReverse value 0 ((s.killers.length : Int) - 1)
    match s.killers.get? i.toNat with
    | none => none
    | some it => some { s with currentIndex := i, selectedItem := some it }

/-- Embedding of `KillerSelect.next` (lines 103-106). -/
def killerSelectNext (s : KillerSelectState) : Option KillerSelectState :=
  killerSelectUpdateIndex s (s.currentIndex + 1)

/-- Embedding of `KillerSelect.prev` (lines 108-109). -/
def killerSelectPrev (s : KillerSelectState) : Option KillerSelectState :=
  killerSelectUpdateIndex s (s.currentIndex - 1)

/-- The state of a `FacedSurvivorSelect` relevant to index updates. -/
structure FacedSurvivorSelectState where
  survivors : List Survivor
  currentIndex : Int
  selectedItem : Option Survivor
deriving DecidableEq

/-- Embedding of `FacedSurvivorSelect.__updateIndex` (guicontrols.py lines
371-375): on an empty item list it returns without touching the state;
otherwise it only clamps the index (`updateSelected` refreshes labels from
the unchanged `selectedItem`). -/
def facedSurvivorUpdateIndex (s : FacedSurvivorSelectState) (value : Int) :
    FacedSurvivorSelectState :=
  if s.survivors.length = 0 then s
  else { s with currentIndex := clampReverse value 0 ((s.survivors.length : Int) - 1) }

/-- Embedding of `FacedSurvivorSelect.next` (lines 380-381). -/
def facedSurvivorNext (s : FacedSurvivorSelectState) : FacedSurvivorSelectState :=
  facedSurvivorUpdateIndex s (s.currentIndex + 1)

/-- Embedding of `FacedSurvivorSelect.prev` (lines 383-384). -/
def facedSurvivorPrev (s : FacedSurvivorSelectState) : FacedSurvivorSelectState :=
  facedSurvivorUpdateIndex s (s.currentIndex - 1)

/-! ### FacedSurvivorSelectionWindow (guicontrols.py lines 386-403) -/

/-- A concrete killer-statistics snapshot with every declared state present
in every histogram. -/
def sampleKillerStats : KillerMatchStatistics Nat where
  favouriteKillerInfo := ⟨⟨"The Trapper"⟩, 3, 5⟩
  mostCommonSurvivorData := ⟨⟨"Dwight Fairfield"⟩, 4, 5⟩
  leastCommonSurvivorData := ⟨⟨"Meg Thomas"⟩, 1, 5⟩
  totalEliminationsInfo := ⟨2, 6, 1⟩
  facedSurvivorStatesHistogram :=
    [(⟨"Dwight Fairfield"⟩, [(0, 1), (1, 2)]), (⟨"Meg Thomas"⟩, [(0, 3), (1, 0)])]
  totalSurvivorStatesHistogram := [(0, 4), (1, 2)]
  gamesPlayedWithKiller := [(⟨"The Trapper"⟩, 3), (⟨"The Wraith"⟩, 2)]
  averageKillerKillsPerMatch := [(⟨"The Trapper"⟩, 2), (⟨"The Wraith"⟩, 1)]
  totalKillerEliminations := [(⟨"The Trapper"⟩, ⟨1, 4, 0⟩), (⟨"The Wraith"⟩, ⟨1, 2, 1⟩)]

/-- `sampleKillerStats` with an empty games-played histogram: a player whose
killer statistics exist but whose per-killer games dict is empty. -/
def emptyGamesKillerStats : KillerMatchStatistics Nat :=
  { sampleKillerStats with gamesPlayedWithKiller := [] }

/-- A concrete survivor-statistics snapshot with every declared match result
present in every histogram. -/
def sampleSurvivorStats : SurvivorMatchStatistics Nat where
  mostCommonKillerData := ⟨⟨"The Trapper"⟩, 3, 5⟩
  leastCommonKillerData := ⟨⟨"The Wraith"⟩, 1, 5⟩
  mostLethalKillerData := ⟨⟨"The Trapper"⟩, 2, 5, (2 : Rat) / 5⟩
  leastLethalKillerData := ⟨⟨"The Wraith"⟩, 0, 5, 0⟩
  mostCommonItemTypeData := ⟨"Medkit"⟩
  gamesPlayedWithSurvivor := [(⟨"Dwight Fairfield"⟩, 4)]
  facedKillerHistogram := [(⟨"The Trapper"⟩, 3), (⟨"The Wraith"⟩, 2)]
  matchResultsHistogram := [(0, 2), (1, 3)]
  survivorsMatchResultsHistogram := [(⟨"Dwight Fairfield"⟩, [(0, 2), (1, 3)])]

/-- `sampleSurvivorStats` with the match-results histogram keys inserted in
the order `1, 0`, the reverse of the declared variant order `[0, 1]`. -/
def reversedResultsSurvivorStats : SurvivorMatchStatistics Nat :=
  { sampleSurvivorStats with matchResultsHistogram := [(1, 5), (0, 7)] }

/-- The survivor tab built from `sampleSurvivorStats` (all four chart
builders succeed on it). -/
def sampleSurvivorTab : TabContent :=
  (survivorTabContent [0, 1] (fun n => toString n) (some sampleSurvivorStats)).getD
    (TabContent.emptyMessage "")

/-- The killer tab built from `sampleKillerStats` (all five chart builders
succeed on it). -/
def sampleKillerTab : TabContent :=
  (killerTabContent [0, 1] (fun n => toString n) (some sampleKillerStats)).getD
    (TabContent.emptyMessage "")

/-- The faced-survivor-states chart built from `sampleKillerStats`. -/
def sampleFacedStatesChart : BarChart Nat :=
  (setupFacedSurvivorStatesChart [0, 1] (fun n => toString n) sampleKillerStats).getD
    ⟨⟨0, []⟩, ⟨0, 0⟩, []⟩

/-! ## Helper lemmas -/

theorem char_toNat_ofNat (m : Nat) (h : m.isValidChar) : (Char.ofNat m).toNat = m := by
  simp [Char.ofNat, dif_pos h, Char.ofNatAux, Char.toNat, UInt32.toNat]

theorem char_toLower_toLower (c : Char) : c.toLower.toLower = c.toLower := by
  unfold Char.toLower
  by_cases h : c.toNat ≥ 65 ∧ c.toNat ≤ 90
  · rw [if_pos h]
    have hv : (Char.ofNat (c.toNat + 32)).toNat = c.toNat + 32 :=
      char_toNat_ofNat _ (Or.inl (by omega))
    rw [if_neg (by omega)]
  · rw [if_neg h, if_neg h]

theorem map_eq_self_of_fixed {α : Type} {f : α → α} :
    ∀ {l : List α}, (∀ x ∈ l, f x = x) → l.map f = l
  | [], _ => rfl
  | a :: l, h => by
    rw [List.map_cons, h a (List.mem_cons_self a l),
      map_eq_self_of_fixed (fun x hx => h x (List.mem_cons_of_mem a hx))]

theorem toList_asString (l : List Char) : (l.asString).toList = l := rfl

theorem canonKillerSelect_chars {l : List Char} {x : Char}
    (hx : x ∈ pyReplaceChar ' ' '-' (pyLower l)) : x.toLower = x ∧ x ≠ ' ' := by
  simp only [pyReplaceChar, pyLower, List.map_map, List.mem_map, Function.comp] at hx
  obtain ⟨z, _, rfl⟩ := hx
  by_cases h : z.toLower = ' '
  · rw [if_pos h]
    exact ⟨by decide, by decide⟩
  · rw [if_neg h]
    exact ⟨char_toLower_toLower z, h⟩

theorem pyReplaceChar_fixed {l : List Char} (h : ∀ x ∈ l, x ≠ ' ') :
    pyReplaceChar ' ' '-' l = l :=
  map_eq_self_of_fixed (fun x hx => if_neg (h x hx))

theorem canonKillerSelect_idem (s : String) :
    canonKillerSelect (canonKillerSelect s) = canonKillerSelect s := by
  unfold canonKillerSelect
  rw [toList_asString]
  have h1 : pyLower (pyReplaceChar ' ' '-' (pyLower s.toList)) =
      pyReplaceChar ' ' '-' (pyLower s.toList) :=
    map_eq_self_of_fixed (fun x hx => (canonKillerSelect_chars hx).1)
  rw [h1, pyReplaceChar_fixed (fun x hx => (canonKillerSelect_chars hx).2)]

theorem canonAddonGrid_chars {l : List Char} {x : Char}
    (hx : x ∈ pyStripChar apostropheChar (pyStripChar ':' (pyStripChar '"'
      (pyReplaceChar ' ' '-' (pyLower l))))) :
    (x.toLower = x ∧ x ≠ ' ') ∧ x ≠ '"' ∧ x ≠ ':' ∧ x ≠ apostropheChar := by
  simp only [pyStripChar, List.mem_filter, decide_eq_true_eq] at hx
  obtain ⟨⟨⟨hmem, h34⟩, h58⟩, h39⟩ := hx
  exact ⟨canonKillerSelect_chars hmem, h34, h58, h39⟩

theorem pyStripChar_fixed {c : Char} {l : List Char} (h : ∀ x ∈ l, x ≠ c) :
    pyStripChar c l = l :=
  List.filter_eq_self.mpr (fun x hx => decide_eq_true (h x hx))

theorem canonAddonGrid_idem (s : String) :
    canonAddonGrid (canonAddonGrid s) = canonAddonGrid s := by
  unfold canonAddonGrid
  rw [toList_asString]
  have h1 : pyLower (pyStripChar apostropheChar (pyStripChar ':' (pyStripChar '"'
      (pyReplaceChar ' ' '-' (pyLower s.toList))))) =
      pyStripChar apostropheChar (pyStripChar ':' (pyStripChar '"'
      (pyReplaceChar ' ' '-' (pyLower s.toList)))) :=
    map_eq_self_of_fixed (fun x hx => (canonAddonGrid_chars hx).1.1)
  rw [h1,
    pyReplaceChar_fixed (fun x hx => (canonAddonGrid_chars hx).1.2),
    pyStripChar_fixed (fun x hx => (canonAddonGrid_chars hx).2.1),
    pyStripChar_fixed (fun x hx => (canonAddonGrid_chars hx).2.2.1),
    pyStripChar_fixed (fun x hx => (canonAddonGrid_chars hx).2.2.2)]

theorem canonAddonButton_chars {l : List Char} {x : Char}
    (hx : x ∈ pyReplaceChar ' ' '-' (pyStripChar '"' (pyLower l))) :
    x.toLower = x ∧ x ≠ ' ' ∧ x ≠ '"' := by
  simp only [pyReplaceChar, List.mem_map] at hx
  obtain ⟨y, hy, rfl⟩ := hx
  simp only [pyStripChar, List.mem_filter, decide_eq_true_eq, pyLower,
    List.mem_map] at hy
  obtain ⟨⟨z, _, rfl⟩, h34⟩ := hy
  by_cases h : z.toLower = ' '
  · rw [if_pos h]
    exact ⟨by decide, by decide, by decide⟩
  · rw [if_neg h]
    exact ⟨char_toLower_toLower z, h, h34⟩

theorem canonAddonButton_idem (s : String) :
    canonAddonButton (canonAddonButton s) = canonAddonButton s := by
  unfold canonAddonButton
  rw [toList_asString]
  have h1 : pyLower (pyReplaceChar ' ' '-' (pyStripChar '"' (pyLower s.toList))) =
      pyReplaceChar ' ' '-' (pyStripChar '"' (pyLower s.toList)) :=
    map_eq_self_of_fixed (fun x hx => (canonAddonButton_chars hx).1)
  rw [h1,
    pyStripChar_fixed (fun x hx => (canonAddonButton_chars hx).2.2),
    pyReplaceChar_fixed (fun x hx => (canonAddonButton_chars hx).2.1)]

theorem le_foldl_max {α : Type} [LinearOrder α] : ∀ (l : List α) (a : α), a ≤ l.foldl max a
  | [], a => le_refl a
  | x :: xs, a => le_trans (le_max_left a x) (le_foldl_max xs (max a x))

theorem foldl_max_le_of_mem {α : Type} [LinearOrder α] {x : α} :
    ∀ {l : List α}, x ∈ l → ∀ (a : α), x ≤ l.foldl max a := by
  intro l
  induction l with
  | nil => intro hx; exact absurd hx (List.not_mem_nil x)
  | cons y ys ih =>
    intro hx a
    rcases List.mem_cons.mp hx with rfl | h
    · exact le_trans (le_max_right a x) (le_foldl_max ys (max a x))
    · exact ih h (max a y)

theorem foldl_max_mem_or {α : Type} [LinearOrder α] :
    ∀ (l : List α) (a : α), l.foldl max a = a ∨ l.foldl max a ∈ l
  | [], _ => Or.inl rfl
  | x :: xs, a => by
    rw [List.foldl_cons]
    rcases foldl_max_mem_or xs (max a x) with h | h
    · rcases max_choice a x with h2 | h2
      · exact Or.inl (by rw [h, h2])
      · exact Or.inr (by rw [h, h2]; exact List.mem_cons_self x xs)
    · exact Or.inr (List.mem_cons_of_mem x h)

theorem foldl_max_zero_mem : ∀ (l : List Nat), l ≠ [] → l.foldl max 0 ∈ l
  | [], h => absurd rfl h
  | x :: xs, _ => by
    have h0 : (x :: xs).foldl max 0 = xs.foldl max x := by
      rw [List.foldl_cons, Nat.zero_max]
    rw [h0]
    rcases foldl_max_mem_or xs x with h | h
    · rw [h]; exact List.mem_cons_self x xs
    · exact List.mem_cons_of_mem x h

theorem pyMax_spec {α : Type} [LinearOrder α] {l : List α} {m : α}
    (h : pyMax l = some m) : m ∈ l ∧ ∀ x ∈ l, x ≤ m := by
  cases l with
  | nil => exact absurd h (by simp [pyMax])
  | cons y ys =>
    have hm : m = ys.foldl max y := by
      have := h
      simp [pyMax] at this
      exact this.symm
    subst hm
    refine ⟨?_, ?_⟩
    · rcases foldl_max_mem_or ys y with h2 | h2
      · rw [h2]; exact List.mem_cons_self y ys
      · exact List.mem_cons_of_mem y h2
    · intro x hx
      rcases List.mem_cons.mp hx with rfl | h2
      · exact le_foldl_max ys x
      · exact foldl_max_le_of_mem h2 y

theorem pyMax_of_ne_nil {α : Type} [Max α] {l : List α} (h : l ≠ []) :
    ∃ m, pyMax l = some m := by
  cases l with
  | nil => exact absurd rfl h
  | cons y ys => exact ⟨ys.foldl max y, rfl⟩

theorem mapOption_length {α β : Type} (f : α → Option β) :
    ∀ {l : List α} {r : List β}, mapOption f l = some r → r.length = l.length := by
  intro l
  induction l with
  | nil => intro r h; simp [mapOption] at h; simp [← h]
  | cons a t ih =>
    intro r h
    unfold mapOption at h
    cases hfa : f a with
    | none => rw [hfa] at h; exact absurd h (by simp)
    | some b =>
      rw [hfa] at h
      cases hrest : mapOption f t with
      | none => rw [hrest] at h; exact absurd h (by simp)
      | some bs =>
        rw [hrest] at h
        simp at h
        rw [← h]
        simp [ih hrest]

theorem mapOption_mem {α β : Type} (f : α → Option β) :
    ∀ {l : List α} {r : List β}, mapOption f l = some r →
      ∀ b ∈ r, ∃ a ∈ l, f a = some b := by
  intro l
  induction l with
  | nil =>
    intro r h b hb
    simp [mapOption] at h
    subst h
    exact absurd hb (List.not_mem_nil b)
  | cons a t ih =>
    intro r h b hb
    unfold mapOption at h
    cases hfa : f a with
    | none => rw [hfa] at h; exact absurd h (by simp)
    | some b0 =>
      rw [hfa] at h
      cases hrest : mapOption f t with
      | none => rw [hrest] at h; exact absurd h (by simp)
      | some bs =>
        rw [hrest] at h
        simp at h
        rw [← h] at hb
        rcases List.mem_cons.mp hb with rfl | hb2
        · exact ⟨a, List.mem_cons_self a t, hfa⟩
        · obtain ⟨a2, ha2, hfa2⟩ := ih hrest b hb2
          exact ⟨a2, List.mem_cons_of_mem a ha2, hfa2⟩

theorem mapOption_eq_map {α β : Type} (f : α → Option β) (dflt : β) :
    ∀ {l : List α}, (∀ a ∈ l, (f a).isSome) →
      mapOption f l = some (l.map (fun a => (f a).getD dflt)) := by
  intro l
  induction l with
  | nil => intro _; rfl
  | cons a t ih =>
    intro h
    have ha : (f a).isSome := h a (List.mem_cons_self a t)
    unfold mapOption
    cases hfa : f a with
    | none => rw [hfa] at ha; exact absurd ha (by simp)
    | some b =>
      rw [ih (fun x hx => h x (List.mem_cons_of_mem a hx))]
      simp [hfa]

theorem zip_right_mem {α β : Type} :
    ∀ (l₁ : List α) (l₂ : List β), l₁.length = l₂.length →
      ∀ {b : β}, b ∈ l₂ → ∃ a, (a, b) ∈ l₁.zip l₂ := by
  intro l₁
  induction l₁ with
  | nil =>
    intro l₂ h b hb
    cases l₂ with
    | nil => exact absurd hb (List.not_mem_nil b)
    | cons c t => exact absurd h (by simp)
  | cons a t ih =>
    intro l₂ h b hb
    cases l₂ with
    | nil => exact absurd hb (List.not_mem_nil b)
    | cons c t2 =>
      rcases List.mem_cons.mp hb with rfl | hb2
      · exact ⟨a, List.mem_cons_self (a, b) (t.zip t2)⟩
      · obtain ⟨a2, ha2⟩ := ih t2 (by simpa using h) hb2
        exact ⟨a2, List.mem_cons_of_mem (a, c) ha2⟩

theorem dictGet_cons_self {κ α : Type} [DecidableEq κ] (k : κ) (v : α)
    (t : List (κ × α)) : dictGet ((k, v) :: t) k = some v := by
  simp [dictGet]

theorem dictGet_cons_ne {κ α : Type} [DecidableEq κ] {k₀ k : κ} (v : α)
    (t : List (κ × α)) (h : k₀ ≠ k) : dictGet ((k₀, v) :: t) k = dictGet t k := by
  simp [dictGet, List.find?, h]

theorem dictGet_self_map {κ α : Type} [DecidableEq κ] (dflt : α) :
    ∀ {d : List (κ × α)}, (d.map (·.1)).Nodup →
      d.map (fun p => (dictGet d p.1).getD dflt) = d.map (·.2) := by
  intro d
  induction d with
  | nil => intro _; rfl
  | cons p t ih =>
    intro hnd
    obtain ⟨k, v⟩ := p
    simp only [List.map_cons] at hnd
    have hk : k ∉ t.map (·.1) := (List.nodup_cons.mp hnd).1
    have hnt : (t.map (·.1)).Nodup := (List.nodup_cons.mp hnd).2
    rw [List.map_cons, List.map_cons, dictGet_cons_self]
    have hcongr : t.map (fun p => (dictGet ((k, v) :: t) p.1).getD dflt) =
        t.map (fun p => (dictGet t p.1).getD dflt) := by
      apply List.map_congr_left
      intro p hp
      have hne : k ≠ p.1 := fun he => hk (he ▸ List.mem_map_of_mem (·.1) hp)
      rw [dictGet_cons_ne v t hne]
    rw [hcongr, ih hnt]
    simp

theorem clampReverse_bounds (value lo hi : Int) (h : lo ≤ hi) :
    lo ≤ clampReverse value lo hi ∧ clampReverse value lo hi ≤ hi := by
  unfold clampReverse
  split_ifs <;> omega

theorem killerSelectUpdateIndex_some (s : KillerSelectState) (value : Int)
    (h : s.killers ≠ []) :
    ∃ s2, killerSelectUpdateIndex s value = some s2 ∧
      s2.killers = s.killers ∧
      s2.currentIndex = clampReverse value 0 ((s.killers.length : Int) - 1) ∧
      0 ≤ s2.currentIndex ∧ s2.currentIndex ≤ (s.killers.length : Int) - 1 := by
  have hlen : 0 < s.killers.length := List.length_pos.mpr h
  have hb := clampReverse_bounds value 0 ((s.killers.length : Int) - 1) (by omega)
  unfold killerSelectUpdateIndex
  rw [if_neg (by omega)]
  have hlt : (clampReverse value 0 ((s.killers.length : Int) - 1)).toNat <
      s.killers.length := by omega
  simp only [List.get?_eq_get hlt]
  exact ⟨_, rfl, rfl, rfl, hb.1, hb.2⟩

theorem facedSurvivorUpdateIndex_bounds (t : FacedSurvivorSelectState)
    (value : Int) (h : t.survivors ≠ []) :
    0 ≤ (facedSurvivorUpdateIndex t value).currentIndex ∧
      (facedSurvivorUpdateIndex t value).currentIndex ≤
        (t.survivors.length : Int) - 1 := by
  have hlen : 0 < t.survivors.length := List.length_pos.mpr h
  unfold facedSurvivorUpdateIndex
  rw [if_neg (by omega)]
  exact clampReverse_bounds value 0 ((t.survivors.length : Int) - 1) (by omega)

theorem setupKillerGamesChart_eq {ε : Type} (ks : KillerMatchStatistics ε)
    {m : Nat} (hm : pyMax (ks.gamesPlayedWithKiller.map (·.2)) = some m) :
    setupKillerGamesChart ks = some
      { categoryAxis :=
          { labelsAngle := -90,
            categories := ks.gamesPlayedWithKiller.map (fun p => p.1.killerAlias) },
        valueAxis := { minVal := 0, maxVal := m },
        barsets := [("Games with certain killer",
          ks.gamesPlayedWithKiller.map (·.2))] } := by
  unfold setupKillerGamesChart
  rw [hm]
  rfl

theorem setupFacedKillerHistogramChart_eq {ρ : Type}
    (ss : SurvivorMatchStatistics ρ) {m : Nat}
    (hm : pyMax (ss.facedKillerHistogram.map (·.2)) = some m) :
    setupFacedKillerHistogramChart ss = some
      { categoryAxis :=
          { labelsAngle := -90,
            categories := ss.facedKillerHistogram.map (fun p => p.1.killerAlias) },
        valueAxis := { minVal := 0, maxVal := m },
        barsets := [("Faced killers", ss.facedKillerHistogram.map (·.2))] } := by
  unfold setupFacedKillerHistogramChart
  rw [hm]
  rfl

theorem setupMatchResultsHistogramChart_eq {ρ : Type} (declResults : List ρ)
    (resultLabel : ρ → String) (ss : SurvivorMatchStatistics ρ) {m : Nat}
    (hm : pyMax (ss.matchResultsHistogram.map (·.2)) = some m) :
    setupMatchResultsHistogramChart declResults resultLabel ss = some
      { categoryAxis :=
          { labelsAngle := -90, categories := declResults.map resultLabel },
        valueAxis := { minVal := 0, maxVal := m },
        barsets := [("Match results", ss.matchResultsHistogram.map (·.2))] } := by
  unfold setupMatchResultsHistogramChart
  rw [hm]
  rfl

theorem setupTotalStatesChart_eq {ε : Type} [DecidableEq ε] (decl : List ε)
    (stateLabel : ε → String) (ks : KillerMatchStatistics ε) {m : Nat}
    {vals : List Nat}
    (hm : pyMax (ks.totalSurvivorStatesHistogram.map (·.2)) = some m)
    (hvals : mapOption (fun k => dictGet ks.totalSurvivorStatesHistogram k) decl =
      some vals) :
    setupTotalStatesChart decl stateLabel ks = some
      { categoryAxis := { labelsAngle := -90, categories := decl.map stateLabel },
        valueAxis := { minVal := 0, maxVal := m },
        barsets := [("Survivor state", vals)] } := by
  unfold setupTotalStatesChart
  rw [hm]
  simp only [hvals]
  rfl

theorem setupFacedSurvivorStatesChart_eq {ε : Type} [DecidableEq ε]
    (decl : List ε) (stateLabel : ε → String) (ks : KillerMatchStatistics ε)
    {rows : List (List Nat)}
    (hrows : mapOption (fun state =>
      mapOption (fun p => dictGet p.2 state)
        ks.facedSurvivorStatesHistogram) decl = some rows) :
    setupFacedSurvivorStatesChart decl stateLabel ks = some
      { categoryAxis :=
          { labelsAngle := -90,
            categories :=
              ks.facedSurvivorStatesHistogram.map (fun p => p.1.survivorName) },
        valueAxis := { minVal := 0, maxVal := rows.flatten.foldl max 0 },
        barsets := (decl.map stateLabel).zip rows } := by
  unfold setupFacedSurvivorStatesChart
  rw [hrows]
  rfl

/-! ## Claim theorems -/

/-- C1: for every calculator, `StatisticsWorker.run` invokes the three
computation entry points sequentially in the order general, killer,
survivor, and emits exactly one `calculationFinished` notification carrying
exactly that triple of results; in particular, given calculator outputs
`(G, None, S)`, the single emitted notification carries exactly
`(G, none, some S)`. -/
theorem statisticsWorker_run_single_emission {γ κ σ : Type}
    (calculator : StatisticsCalculator γ κ σ) :
    statisticsWorkerRun calculator =
      [WorkerEvent.callGeneral, WorkerEvent.callKillerGeneral,
       WorkerEvent.callSurvivorGeneral,
       WorkerEvent.emitCalculationFinished calculator.calculateGeneral
         calculator.calculateKillerGeneral calculator.calculateSurvivorGeneral] ∧
    (statisticsWorkerRun calculator).filter WorkerEvent.isEmission =
      [WorkerEvent.emitCalculationFinished calculator.calculateGeneral
        calculator.calculateKillerGeneral calculator.calculateSurvivorGeneral] ∧
    ∀ (g : γ) (sv : σ),
      (statisticsWorkerRun
        { calculateGeneral := g, calculateKillerGeneral := (none : Option κ),
          calculateSurvivorGeneral := some sv }).filter WorkerEvent.isEmission =
        [WorkerEvent.emitCalculationFinished g none (some sv)] :=
  ⟨rfl, rfl, fun _ _ => rfl⟩

/-- C3 (failing input): on an empty games-played histogram,
`__setupKillerGamesChart` evaluates `max(gamesHistogram.values())` on an
empty sequence, which raises `ValueError` (embedded as `none`) instead of
producing a chart with a floored value axis; `__setupTotalStatesChart`
faults the same way on an empty total-states histogram. -/
theorem killerGamesChart_faults_on_empty_histogram :
    emptyGamesKillerStats.gamesPlayedWithKiller = [] ∧
    setupKillerGamesChart emptyGamesKillerStats = none ∧
    setupTotalStatesChart [0, 1] (fun n => toString n)
      { sampleKillerStats with totalSurvivorStatesHistogram := [] } = none :=
  ⟨rfl, rfl, rfl⟩

/-- C6: on a list of length `N ≥ 1`, `next()` at current index `N - 1`
does not fault and wraps the index to `0`, `prev()` at index `0` wraps to
`N - 1`; and the helper `clamp_reverse` returns the minimum bound when the
value exceeds the maximum, the maximum bound when the value is below the
minimum, and the value itself otherwise (bounds taken in order, as at every
call site where the minimum is `0` and the maximum is `N - 1`). -/
theorem carousel_wraparound (s : KillerSelectState)
    (hlen : 1 ≤ s.killers.length) :
    (s.currentIndex = (s.killers.length : Int) - 1 →
      ∃ s2, killerSelectNext s = some s2 ∧ s2.currentIndex = 0) ∧
    (s.currentIndex = 0 →
      ∃ s2, killerSelectPrev s = some s2 ∧
        s2.currentIndex = (s.killers.length : Int) - 1) ∧
    ∀ (value lo hi : Int), lo ≤ hi →
      (hi < value → clampReverse value lo hi = lo) ∧
      (value < lo → clampReverse value lo hi = hi) ∧
      (lo ≤ value → value ≤ hi → clampReverse value lo hi = value) := by
  have hne : s.killers ≠ [] := by
    intro he
    rw [he] at hlen
    simp at hlen
  refine ⟨?_, ?_, ?_⟩
  · intro hidx
    obtain ⟨s2, hs2, _, hci, _, _⟩ :=
      killerSelectUpdateIndex_some s (s.currentIndex + 1) hne
    refine ⟨s2, hs2, ?_⟩
    rw [hci, hidx]
    unfold clampReverse
    rw [if_pos (by omega)]
  · intro hidx
    obtain ⟨s2, hs2, _, hci, _, _⟩ :=
      killerSelectUpdateIndex_some s (s.currentIndex - 1) hne
    refine ⟨s2, hs2, ?_⟩
    rw [hci, hidx]
    unfold clampReverse
    rw [if_neg (by omega), if_pos (by omega)]
  · intro value lo hi hle
    unfold clampReverse
    refine ⟨fun h1 => ?_, fun h1 => ?_, fun h1 h2 => ?_⟩ <;> split_ifs <;> omega

/-- Witness for C6 at a three-killer list with current index `2`. -/
theorem carousel_wraparound_witness :
    1 ≤ ([⟨"The Trapper"⟩, ⟨"The Wraith"⟩, ⟨"The Hillbilly"⟩] : List Killer).length ∧
    (2 : Int) =
      (([⟨"The Trapper"⟩, ⟨"The Wraith"⟩, ⟨"The Hillbilly"⟩] : List Killer).length : Int) - 1 ∧
    ∃ s2, killerSelectNext
        { killers := [⟨"The Trapper"⟩, ⟨"The Wraith"⟩, ⟨"The Hillbilly"⟩],
          currentIndex := 2, selectedItem := none } = some s2 ∧
      s2.currentIndex = 0 :=
  ⟨by decide, by decide,
   (carousel_wraparound
     { killers := [⟨"The Trapper"⟩, ⟨"The Wraith"⟩, ⟨"The Hillbilly"⟩],
       currentIndex := 2, selectedItem := none } (by decide)).1 (by decide)⟩

/-- C7 (amended): each call-site canonicalization is idempotent and
deterministic, and each maps `The Huntress` to `the-huntress`; but the call
sites do not all compute the same function (see the counterexample:
`KillerSelect` neither strips quotes nor colons, `AddonSelectPopup`
additionally strips apostrophes). -/
theorem canonicalization_idempotent :
    (∀ s, canonKillerSelect (canonKillerSelect s) = canonKillerSelect s) ∧
    (∀ s, canonAddonGrid (canonAddonGrid s) = canonAddonGrid s) ∧
    (∀ s, canonAddonButton (canonAddonButton s) = canonAddonButton s) ∧
    canonKillerSelect "The Huntress" = "the-huntress" ∧
    canonAddonGrid "The Huntress" = "the-huntress" ∧
    canonAddonButton "The Huntress" = "the-huntress" :=
  ⟨canonKillerSelect_idem, canonAddonGrid_idem, canonAddonButton_idem,
   by decide, by decide, by decide⟩

/-- C7 (counterexample): the icon-lookup call sites do not all compute the
same canonicalization: on the name `A:B` the `KillerSelect` call site
(guicontrols.py line 88) keeps the colon while the `AddonSelectPopup` call
site (line 195) strips it. -/
theorem canonicalization_call_sites_differ :
    canonKillerSelect "A:B" = "a:b" ∧ canonAddonGrid "A:B" = "ab" ∧
    canonKillerSelect "A:B" ≠ canonAddonGrid "A:B" :=
  ⟨by decide, by decide, by decide⟩

/-- C9: for both carousel selectors, `next()` and `prev()` keep the current
index inside `[0, N - 1]` whenever the item list is non-empty, and on an
empty item list they leave the state unchanged without faulting. -/
theorem carousel_index_invariant (s : KillerSelectState)
    (t : FacedSurvivorSelectState) :
    (s.killers ≠ [] →
      (∃ s2, killerSelectNext s = some s2 ∧ 0 ≤ s2.currentIndex ∧
        s2.currentIndex ≤ (s.killers.length : Int) - 1) ∧
      (∃ s2, killerSelectPrev s = some s2 ∧ 0 ≤ s2.currentIndex ∧
        s2.currentIndex ≤ (s.killers.length : Int) - 1)) ∧
    (s.killers = [] → killerSelectNext s = some s ∧ killerSelectPrev s = some s) ∧
    (t.survivors ≠ [] →
      (0 ≤ (facedSurvivorNext t).currentIndex ∧
        (facedSurvivorNext t).currentIndex ≤ (t.survivors.length : Int) - 1) ∧
      (0 ≤ (facedSurvivorPrev t).currentIndex ∧
        (facedSurvivorPrev t).currentIndex ≤ (t.survivors.length : Int) - 1)) ∧
    (t.survivors = [] → facedSurvivorNext t = t ∧ facedSurvivorPrev t = t) := by
  refine ⟨?_, ?_, ?_, ?_⟩
  · intro hne
    obtain ⟨s2, hs2, _, _, hlo, hhi⟩ :=
      killerSelectUpdateIndex_some s (s.currentIndex + 1) hne
    obtain ⟨s3, hs3, _, _, hlo3, hhi3⟩ :=
      killerSelectUpdateIndex_some s (s.currentIndex - 1) hne
    exact ⟨⟨s2, hs2, hlo, hhi⟩, ⟨s3, hs3, hlo3, hhi3⟩⟩
  · intro he
    have hz : s.killers.length = 0 := by rw [he]; rfl
    constructor <;>
      simp [killerSelectNext, killerSelectPrev, killerSelectUpdateIndex, hz]
  · intro hne
    exact ⟨facedSurvivorUpdateIndex_bounds t (t.currentIndex + 1) hne,
      facedSurvivorUpdateIndex_bounds t (t.currentIndex - 1) hne⟩
  · intro he
    have hz : t.survivors.length = 0 := by rw [he]; rfl
    constructor <;>
      simp [facedSurvivorNext, facedSurvivorPrev, facedSurvivorUpdateIndex, hz]

/-- Witness for C9: a one-killer selector (non-empty branch) and an empty
faced-survivor selector (empty branch). -/
theorem carousel_index_invariant_witness :
    (([⟨"The Nurse"⟩] : List Killer) ≠ []) ∧
    (∃ s2, killerSelectNext
        { killers := [⟨"The Nurse"⟩], currentIndex := 0, selectedItem := none } =
          some s2 ∧
      0 ≤ s2.currentIndex ∧
      s2.currentIndex ≤ (([⟨"The Nurse"⟩] : List Killer).length : Int) - 1) ∧
    facedSurvivorNext { survivors := [], currentIndex := 0, selectedItem := none } =
      { survivors := [], currentIndex := 0, selectedItem := none } :=
  ⟨by decide,
   ((carousel_index_invariant
     { killers := [⟨"The Nurse"⟩], currentIndex := 0, selectedItem := none }
     { survivors := [], currentIndex := 0, selectedItem := none }).1
       (by decide)).1,
   (((carousel_index_invariant
     { killers := [⟨"The Nurse"⟩], currentIndex := 0, selectedItem := none }
     { survivors := [], currentIndex := 0, selectedItem := none }).2.2.2)
       (by decide)).1⟩

theorem survivorTabContent_some_shape {ρ : Type} [DecidableEq ρ]
    (declResults : List ρ) (resultLabel : ρ → String)
    (ss : SurvivorMatchStatistics ρ) (tab : TabContent)
    (h : survivorTabContent declResults resultLabel (some ss) = some tab) :
    ∃ charts, tab = TabContent.stats survivorAggregateLabels charts ∧
      charts.length = 4 := by
  unfold survivorTabContent at h
  simp only [Option.bind_eq_bind, Option.bind_eq_some, Option.pure_def,
    Option.some.injEq] at h
  obtain ⟨c1, h1, c2, h2, c3, h3, c4, h4, htab⟩ := h
  exact ⟨_, htab.symm, rfl⟩

theorem killerTabContent_some_shape {ε : Type} [DecidableEq ε]
    (decl : List ε) (stateLabel : ε → String) (ks : KillerMatchStatistics ε)
    (tab : TabContent)
    (h : killerTabContent decl stateLabel (some ks) = some tab) :
    ∃ charts, tab = TabContent.stats killerAggregateLabels charts ∧
      charts.length = 5 := by
  unfold killerTabContent at h
  simp only [Option.bind_eq_bind, Option.bind_eq_some, Option.pure_def,
    Option.some.injEq] at h
  obtain ⟨c1, h1, c2, h2, c3, h3, c5, h5, htab⟩ := h
  exact ⟨_, htab.symm, rfl⟩

/-- C2: for every non-empty histogram fed to a chart, the value axis runs
from 0 to the maximum observed count across all series feeding that chart:
for the single-series games chart the upper bound is a member of, and an
upper bound of, `max(H.values())`; for the multi-series faced-survivor
states chart it bounds every appended count of every bar set and is
attained in one of them. -/
theorem chart_value_axis_range :
    (∀ (ε : Type) (ks : KillerMatchStatistics ε), ks.gamesPlayedWithKiller ≠ [] →
      ∃ c, setupKillerGamesChart ks = some c ∧
        c.valueAxis.minVal = 0 ∧
        c.valueAxis.maxVal ∈ ks.gamesPlayedWithKiller.map (·.2) ∧
        ∀ v ∈ ks.gamesPlayedWithKiller.map (·.2), v ≤ c.valueAxis.maxVal) ∧
    (∀ (ε : Type) [DecidableEq ε] (decl : List ε) (stateLabel : ε → String)
      (ks : KillerMatchStatistics ε) (c : BarChart Nat),
      setupFacedSurvivorStatesChart decl stateLabel ks = some c →
      c.valueAxis.minVal = 0 ∧
      (∀ p ∈ c.barsets, ∀ v ∈ p.2, v ≤ c.valueAxis.maxVal) ∧
      (decl ≠ [] → ks.facedSurvivorStatesHistogram ≠ [] →
        ∃ p, p ∈ c.barsets ∧ c.valueAxis.maxVal ∈ p.2)) := by
  constructor
  · intro ε ks hne
    have hvne : ks.gamesPlayedWithKiller.map (·.2) ≠ [] := by
      intro h0
      exact hne (List.map_eq_nil_iff.mp h0)
    obtain ⟨m, hm⟩ := pyMax_of_ne_nil hvne
    have hspec := pyMax_spec hm
    exact ⟨_, setupKillerGamesChart_eq ks hm, rfl, hspec.1, hspec.2⟩
  · intro ε instε decl stateLabel ks c hc
    cases hrows : mapOption (fun state =>
        mapOption (fun p => dictGet p.2 state)
          ks.facedSurvivorStatesHistogram) decl with
    | none =>
      unfold setupFacedSurvivorStatesChart at hc
      rw [hrows] at hc
      exact absurd hc (by simp)
    | some rows =>
      rw [setupFacedSurvivorStatesChart_eq decl stateLabel ks hrows] at hc
      injection hc with hc
      subst hc
      refine ⟨rfl, ?_, ?_⟩
      · intro p hp v hv
        obtain ⟨nm, row⟩ := p
        have hrow : row ∈ rows := (List.of_mem_zip hp).2
        have hvf : v ∈ rows.flatten := List.mem_flatten.mpr ⟨row, hrow, hv⟩
        exact foldl_max_le_of_mem hvf 0
      · intro hdecl hhist
        have hlen : rows.length = decl.length := mapOption_length _ hrows
        cases rows with
        | nil =>
          exact absurd (List.length_eq_zero.mp hlen.symm)
            (by simpa using hdecl)
        | cons r rs =>
          obtain ⟨st, _, hr⟩ :=
            mapOption_mem _ hrows r (List.mem_cons_self r rs)
          have hrlen : r.length = ks.facedSurvivorStatesHistogram.length :=
            mapOption_length _ hr
          have hrne : r ≠ [] := by
            intro h0
            rw [h0] at hrlen
            exact hhist (List.length_eq_zero.mp hrlen.symm)
          have hfne : (r :: rs).flatten ≠ [] := by
            rw [List.flatten_cons]
            intro h0
            exact hrne (List.append_eq_nil.mp h0).1
          have hmem := foldl_max_zero_mem ((r :: rs).flatten) hfne
          obtain ⟨row, hrowmem, hvmem⟩ := List.mem_flatten.mp hmem
          obtain ⟨nm, hnm⟩ := zip_right_mem (decl.map stateLabel) (r :: rs)
            (by rw [List.length_map, ← hlen]) hrowmem
          exact ⟨(nm, row), hnm, hvmem⟩

/-- Witness for C2 at `sampleKillerStats` for both the single-series games
chart and the multi-series faced-survivor-states chart. -/
theorem chart_value_axis_range_witness :
    sampleKillerStats.gamesPlayedWithKiller ≠ [] ∧
    (∃ c, setupKillerGamesChart sampleKillerStats = some c ∧
      c.valueAxis.minVal = 0 ∧
      c.valueAxis.maxVal ∈ sampleKillerStats.gamesPlayedWithKiller.map (·.2) ∧
      ∀ v ∈ sampleKillerStats.gamesPlayedWithKiller.map (·.2),
        v ≤ c.valueAxis.maxVal) ∧
    setupFacedSurvivorStatesChart [0, 1] (fun n => toString n) sampleKillerStats =
      some sampleFacedStatesChart ∧
    (∃ p, p ∈ sampleFacedStatesChart.barsets ∧
      sampleFacedStatesChart.valueAxis.maxVal ∈ p.2) :=
  ⟨by decide,
   chart_value_axis_range.1 Nat sampleKillerStats (by decide),
   by decide,
   (chart_value_axis_range.2 Nat [0, 1] (fun n => toString n) sampleKillerStats
     sampleFacedStatesChart (by decide)).2.2 (by decide) (by decide)⟩

/-- C8: chart category ordering is deterministic: equal input statistics
produce equal charts, and the category-label list follows the insertion
order of the histogram backing the chart (the keys of the dict, in the
order they were inserted) rather than any unstable iteration order. -/
theorem chart_category_order_deterministic :
    (∀ (ρ : Type) (ss₁ ss₂ : SurvivorMatchStatistics ρ), ss₁ = ss₂ →
      setupFacedKillerHistogramChart ss₁ = setupFacedKillerHistogramChart ss₂) ∧
    (∀ (ρ : Type) (ss : SurvivorMatchStatistics ρ), ss.facedKillerHistogram ≠ [] →
      ∃ c, setupFacedKillerHistogramChart ss = some c ∧
        c.categoryAxis.categories =
          ss.facedKillerHistogram.map (fun p => p.1.killerAlias)) ∧
    (∀ (ε : Type) [DecidableEq ε] (decl₁ decl₂ : List ε)
      (stateLabel : ε → String) (ks₁ ks₂ : KillerMatchStatistics ε),
      decl₁ = decl₂ → ks₁ = ks₂ →
      setupFacedSurvivorStatesChart decl₁ stateLabel ks₁ =
        setupFacedSurvivorStatesChart decl₂ stateLabel ks₂) ∧
    (∀ (ε : Type) [DecidableEq ε] (decl : List ε) (stateLabel : ε → String)
      (ks : KillerMatchStatistics ε) (c : BarChart Nat),
      setupFacedSurvivorStatesChart decl stateLabel ks = some c →
      c.categoryAxis.categories =
        ks.facedSurvivorStatesHistogram.map (fun p => p.1.survivorName)) := by
  refine ⟨?_, ?_, ?_, ?_⟩
  · intro ρ ss₁ ss₂ h
    rw [h]
  · intro ρ ss hne
    have hvne : ss.facedKillerHistogram.map (·.2) ≠ [] := by
      intro h0
      exact hne (List.map_eq_nil_iff.mp h0)
    obtain ⟨m, hm⟩ := pyMax_of_ne_nil hvne
    exact ⟨_, setupFacedKillerHistogramChart_eq ss hm, rfl⟩
  · intro ε instε decl₁ decl₂ stateLabel ks₁ ks₂ h1 h2
    rw [h1, h2]
  · intro ε instε decl stateLabel ks c hc
    cases hrows : mapOption (fun state =>
        mapOption (fun p => dictGet p.2 state)
          ks.facedSurvivorStatesHistogram) decl with
    | none =>
      unfold setupFacedSurvivorStatesChart at hc
      rw [hrows] at hc
      exact absurd hc (by simp)
    | some rows =>
      rw [setupFacedSurvivorStatesChart_eq decl stateLabel ks hrows] at hc
      injection hc with hc
      subst hc
      rfl

/-- Witness for C8 at the sample statistics. -/
theorem chart_category_order_deterministic_witness :
    sampleSurvivorStats.facedKillerHistogram ≠ [] ∧
    (∃ c, setupFacedKillerHistogramChart sampleSurvivorStats = some c ∧
      c.categoryAxis.categories =
        sampleSurvivorStats.facedKillerHistogram.map (fun p => p.1.killerAlias)) ∧
    sampleFacedStatesChart.categoryAxis.categories =
      sampleKillerStats.facedSurvivorStatesHistogram.map (fun p => p.1.survivorName) :=
  ⟨by decide,
   chart_category_order_deterministic.2.1 Nat sampleSurvivorStats (by decide),
   chart_category_order_deterministic.2.2.2 Nat [0, 1] (fun n => toString n)
     sampleKillerStats sampleFacedStatesChart (by decide)⟩

/-- C4 (counterexample): with match-results histogram `{1: 5, 0: 7}` (keys
inserted in reverse declared order `[0, 1]`), the chart labels follow the
declared order but the bar-set values follow the dict key order: the value
appended at position 0 is 5 while the histogram count of the position-0
category label (variant 0) is 7, so the positional alignment of the claim
fails. -/
theorem matchResults_chart_misaligned :
    setupMatchResultsHistogramChart [0, 1] (fun n => toString n)
        reversedResultsSurvivorStats =
      some { categoryAxis := { labelsAngle := -90, categories := ["0", "1"] },
             valueAxis := { minVal := 0, maxVal := 7 },
             barsets := [("Match results", [5, 7])] } ∧
    dictGet reversedResultsSurvivorStats.matchResultsHistogram 0 = some 7 ∧
    (5 : Nat) ≠ 7 :=
  ⟨by decide, by decide, by decide⟩

/-- C4 (amended): for the total-states chart the label list has one entry
per declared variant in declared order and the i-th appended value is the
histogram count of the i-th label, for every non-empty histogram containing
all declared variants; for the match-results chart the labels are likewise
one per declared variant in declared order, but the values follow the
histogram key insertion order, so the positional alignment holds when the
histogram keys are exactly the declared variants in declared order. -/
theorem chart_series_alignment :
    (∀ (ε : Type) [DecidableEq ε] (decl : List ε) (stateLabel : ε → String)
      (ks : KillerMatchStatistics ε),
      ks.totalSurvivorStatesHistogram ≠ [] →
      (∀ k ∈ decl, (dictGet ks.totalSurvivorStatesHistogram k).isSome) →
      ∃ c, setupTotalStatesChart decl stateLabel ks = some c ∧
        c.categoryAxis.categories = decl.map stateLabel ∧
        c.barsets = [("Survivor state",
          decl.map (fun k => (dictGet ks.totalSurvivorStatesHistogram k).getD 0))]) ∧
    (∀ (ρ : Type) [DecidableEq ρ] (declResults : List ρ)
      (resultLabel : ρ → String) (ss : SurvivorMatchStatistics ρ),
      ss.matchResultsHistogram ≠ [] →
      ss.matchResultsHistogram.map (·.1) = declResults →
      (ss.matchResultsHistogram.map (·.1)).Nodup →
      ∃ c, setupMatchResultsHistogramChart declResults resultLabel ss = some c ∧
        c.categoryAxis.categories = declResults.map resultLabel ∧
        c.barsets = [("Match results",
          declResults.map (fun k => (dictGet ss.matchResultsHistogram k).getD 0))]) := by
  constructor
  · intro ε instε decl stateLabel ks hne hsome
    have hvne : ks.totalSurvivorStatesHistogram.map (·.2) ≠ [] := by
      intro h0
      exact hne (List.map_eq_nil_iff.mp h0)
    obtain ⟨m, hm⟩ := pyMax_of_ne_nil hvne
    have hvals := mapOption_eq_map
      (fun k => dictGet ks.totalSurvivorStatesHistogram k) 0 hsome
    exact ⟨_, setupTotalStatesChart_eq decl stateLabel ks hm hvals, rfl, rfl⟩
  · intro ρ instρ declResults resultLabel ss hne hkeys hnd
    have hvne : ss.matchResultsHistogram.map (·.2) ≠ [] := by
      intro h0
      exact hne (List.map_eq_nil_iff.mp h0)
    obtain ⟨m, hm⟩ := pyMax_of_ne_nil hvne
    refine ⟨_, setupMatchResultsHistogramChart_eq declResults resultLabel ss hm,
      rfl, ?_⟩
    have hv : ss.matchResultsHistogram.map (·.2) =
        declResults.map (fun k => (dictGet ss.matchResultsHistogram k).getD 0) := by
      rw [← hkeys, List.map_map]
      exact (dictGet_self_map 0 hnd).symm
    rw [hv]

/-- Witness for C4 (amended) at the sample statistics, whose histograms
contain the declared variants `[0, 1]` in declared insertion order. -/
theorem chart_series_alignment_witness :
    sampleKillerStats.totalSurvivorStatesHistogram ≠ [] ∧
    (∀ k ∈ ([0, 1] : List Nat),
      (dictGet sampleKillerStats.totalSurvivorStatesHistogram k).isSome) ∧
    (∃ c, setupTotalStatesChart [0, 1] (fun n => toString n) sampleKillerStats =
        some c ∧
      c.categoryAxis.categories = ([0, 1] : List Nat).map (fun n => toString n) ∧
      c.barsets = [("Survivor state", ([0, 1] : List Nat).map
        (fun k => (dictGet sampleKillerStats.totalSurvivorStatesHistogram k).getD 0))]) ∧
    (∃ c, setupMatchResultsHistogramChart [0, 1] (fun n => toString n)
        sampleSurvivorStats = some c ∧
      c.categoryAxis.categories = ([0, 1] : List Nat).map (fun n => toString n) ∧
      c.barsets = [("Match results", ([0, 1] : List Nat).map
        (fun k => (dictGet sampleSurvivorStats.matchResultsHistogram k).getD 0))]) :=
  ⟨by decide, by decide,
   chart_series_alignment.1 Nat [0, 1] (fun n => toString n) sampleKillerStats
     (by decide) (by decide),
   chart_series_alignment.2 Nat [0, 1] (fun n => toString n) sampleSurvivorStats
     (by decide) (by decide) (by decide)⟩

/-- C5: when the killer (resp. survivor) result delivered to the slot is
`None`, the rendering builds only the fixed empty-state message for that
tab (no charts, no aggregate widgets), while a present result for the
other role still yields its populated tab: the aggregate widget group and
its full chart list (four survivor charts, five killer charts). -/
theorem absent_role_renders_empty_message :
    (∀ (ε ρ : Type) [DecidableEq ε] [DecidableEq ρ] (decl : List ε)
      (stateLabel : ε → String) (declResults : List ρ)
      (resultLabel : ρ → String) (ss : SurvivorMatchStatistics ρ)
      (tab : TabContent),
      survivorTabContent declResults resultLabel (some ss) = some tab →
      (∃ charts, tab = TabContent.stats survivorAggregateLabels charts ∧
        charts.length = 4) ∧
      setupUIForStatistics decl stateLabel declResults resultLabel none (some ss) =
        some (TabContent.emptyMessage
          "Nothing to see here. No killer matches present.", tab)) ∧
    (∀ (ε ρ : Type) [DecidableEq ε] [DecidableEq ρ] (decl : List ε)
      (stateLabel : ε → String) (declResults : List ρ)
      (resultLabel : ρ → String) (ks : KillerMatchStatistics ε)
      (tab : TabContent),
      killerTabContent decl stateLabel (some ks) = some tab →
      (∃ charts, tab = TabContent.stats killerAggregateLabels charts ∧
        charts.length = 5) ∧
      setupUIForStatistics decl stateLabel declResults resultLabel (some ks) none =
        some (tab, TabContent.emptyMessage
          "Nothing to see here. No survivor matches present.")) := by
  constructor
  · intro ε ρ instε instρ decl stateLabel declResults resultLabel ss tab h
    refine ⟨survivorTabContent_some_shape declResults resultLabel ss tab h, ?_⟩
    unfold setupUIForStatistics killerTabContent
    rw [h]
    rfl
  · intro ε ρ instε instρ decl stateLabel declResults resultLabel ks tab h
    refine ⟨killerTabContent_some_shape decl stateLabel ks tab h, ?_⟩
    unfold setupUIForStatistics survivorTabContent
    rw [h]
    rfl

/-- Witness for C5: killer result absent, survivor result the concrete
sample; the built survivor tab is `sampleSurvivorTab`. -/
theorem absent_role_renders_empty_message_witness :
    survivorTabContent [0, 1] (fun n => toString n) (some sampleSurvivorStats) =
      some sampleSurvivorTab ∧
    (∃ charts, sampleSurvivorTab =
        TabContent.stats survivorAggregateLabels charts ∧ charts.length = 4) ∧
    setupUIForStatistics [0, 1] (fun n => toString n) [0, 1] (fun n => toString n)
        none (some sampleSurvivorStats) =
      some (TabContent.emptyMessage
        "Nothing to see here. No killer matches present.", sampleSurvivorTab) :=
  ⟨by decide,
   (absent_role_renders_empty_message.1 Nat Nat [0, 1] (fun n => toString n)
     [0, 1] (fun n => toString n) sampleSurvivorStats sampleSurvivorTab
     (by decide)).1,
   (absent_role_renders_empty_message.1 Nat Nat [0, 1] (fun n => toString n)
     [0, 1] (fun n => toString n) sampleSurvivorStats sampleSurvivorTab
     (by decide)).2⟩

end DbdLog
